import Mathlib

/-!
Shallow embedding of src/main.py, the CoWork Manager API: an in-memory
FastAPI service with two stores (salas / rooms, reservas / reservations),
sequential id counters, and handlers for creating, listing, patching and
deleting rooms and reservations.  Python dicts are modelled as association
lists in insertion order; datetime.fromisoformat and datetime comparison
are modelled explicitly, including the fact that comparing an offset-naive
with an offset-aware datetime raises TypeError in Python.
-/

set_option autoImplicit false

deriving instance DecidableEq for Except

/-! ### Python string primitives (ASCII model of str.strip, str.lower) -/

/-- Characters removed by Python str.strip with no argument (ASCII subset). -/
def pyIsSpace (c : Char) : Bool :=
  c = ' ' ∨ c = '\t' ∨ c = '\n' ∨ c = '\x0b' ∨ c = '\x0c' ∨ c = '\r'

/-- str.strip on the character list: drop whitespace from both ends. -/
def pyStripL (cs : List Char) : List Char :=
  ((cs.dropWhile pyIsSpace).reverse.dropWhile pyIsSpace).reverse

/-- Python str.strip(). -/
def pyStrip (s : String) : String :=
  ⟨pyStripL s.data⟩

/-- Python str.lower(), modelled for ASCII letters. -/
def pyToLower (c : Char) : Char :=
  if 'A' ≤ c ∧ c ≤ 'Z' then Char.ofNat (c.toNat + 32) else c

/-- Python str.lower() on a whole string. -/
def pyLower (s : String) : String :=
  ⟨s.data.map pyToLower⟩

/-- Python len() of a string (pydantic min_length counts characters of the raw,
untrimmed value). -/
def pyLen (s : String) : Nat :=
  s.data.length

/-! ### datetime model

A parsed datetime: calendar fields plus an optional UTC offset in minutes.
offset = none is an offset-naive datetime; offset = some m is aware. -/

structure PyDateTime where
  year : Nat
  month : Nat
  day : Nat
  hour : Nat
  minute : Nat
  second : Nat
  usec : Nat
  offset : Option Int
deriving DecidableEq

/-- Read exactly n digits, most significant first, accumulating into acc. -/
def readFixed : Nat → List Char → Nat → Option (Nat × List Char)
  | 0, cs, acc => some (acc, cs)
  | _ + 1, [], _ => none
  | n + 1, c :: cs, acc =>
    if c.isDigit then readFixed n cs (acc * 10 + (c.toNat - 48)) else none

/-- Numeric value of a digit list, most significant first. -/
def digitsVal (cs : List Char) : Nat :=
  cs.foldl (fun acc c => acc * 10 + (c.toNat - 48)) 0

/-- Fractional seconds: 1 to 6 digits, scaled to microseconds. -/
def readFrac (cs : List Char) : Option (Nat × List Char) :=
  let ds := cs.takeWhile Char.isDigit
  if ds.length = 0 ∨ 6 < ds.length then none
  else some (digitsVal ds * 10 ^ (6 - ds.length), cs.dropWhile Char.isDigit)

/-- Expect a specific character next. -/
def expectChar (c : Char) : List Char → Option (List Char)
  | d :: cs => if d = c then some cs else none
  | [] => none

/-- Time-of-day part HH[:MM[:SS[.ffffff]]]; returns hour, minute, second,
microsecond and the unconsumed remainder (a possible UTC offset). -/
def parseTimeFields (cs : List Char) : Option (Nat × Nat × Nat × Nat × List Char) := do
  let (h, cs1) ← readFixed 2 cs 0
  match cs1 with
  | ':' :: cs2 => do
    let (mi, cs3) ← readFixed 2 cs2 0
    match cs3 with
    | ':' :: cs4 => do
      let (s, cs5) ← readFixed 2 cs4 0
      match cs5 with
      | '.' :: cs6 => do
        let (us, cs7) ← readFrac cs6
        pure (h, mi, s, us, cs7)
      | _ => pure (h, mi, s, 0, cs5)
    | _ => pure (h, mi, 0, 0, cs3)
  | _ => pure (h, 0, 0, 0, cs1)

/-- UTC offset suffix: empty (naive), or sign HH:MM, yielding minutes. -/
def parseTz (cs : List Char) : Option (Option Int) :=
  match cs with
  | [] => some none
  | c :: rest =>
    if c = '+' ∨ c = '-' then
      match readFixed 2 rest 0 with
      | none => none
      | some (oh, r2) =>
        match expectChar ':' r2 with
        | none => none
        | some r3 =>
          match readFixed 2 r3 0 with
          | none => none
          | some (om, r4) =>
            if r4 = [] ∧ oh ≤ 23 ∧ om ≤ 59 then
              some (some ((if c = '-' then (-1 : Int) else 1) * Int.ofNat (oh * 60 + om)))
            else none
    else none

/-- Gregorian leap year. -/
def isLeapYear (y : Nat) : Bool :=
  (y % 4 = 0 ∧ y % 100 ≠ 0) ∨ y % 400 = 0

/-- Length of a month, as validated by the Python datetime constructor. -/
def daysInMonth (y m : Nat) : Nat :=
  if m = 2 then (if isLeapYear y then 29 else 28)
  else if m = 4 ∨ m = 6 ∨ m = 9 ∨ m = 11 then 30
  else 31

/-- Models datetime.fromisoformat on the grammar exercised by this service:
YYYY-MM-DD, optionally a single separator character and
HH[:MM[:SS[.ffffff]]], optionally a UTC offset sign HH:MM; field ranges are
validated exactly as the datetime constructor does (unparsable or
out-of-range input raises ValueError, modelled as none). -/
def fromisoformat (s : String) : Option PyDateTime := do
  let cs := s.data
  let (y, c1) ← readFixed 4 cs 0
  let c2 ← expectChar '-' c1
  let (mo, c3) ← readFixed 2 c2 0
  let c4 ← expectChar '-' c3
  let (d, c5) ← readFixed 2 c4 0
  let (h, mi, sec, us, off) ←
    match c5 with
    | [] => some (0, 0, 0, 0, none)
    | _sep :: rest => do
      let (h, mi, sec, us, r) ← parseTimeFields rest
      let off ← parseTz r
      pure (h, mi, sec, us, off)
  if 1 ≤ y ∧ 1 ≤ mo ∧ mo ≤ 12 ∧ 1 ≤ d ∧ d ≤ daysInMonth y mo ∧
      h ≤ 23 ∧ mi ≤ 59 ∧ sec ≤ 59 then
    pure ⟨y, mo, d, h, mi, sec, us, off⟩
  else
    none

/-- Days in the proleptic Gregorian calendar before January 1 of year y
(the Python date.toordinal of Jan 1 year y, minus 1). -/
def daysBeforeYear (y : Nat) : Nat :=
  365 * (y - 1) + (y - 1) / 4 - (y - 1) / 100 + (y - 1) / 400

/-- Days of year y that precede the first of month m. -/
def daysBeforeMonth (y m : Nat) : Nat :=
  (List.range (m - 1)).foldl (fun acc i => acc + daysInMonth y (i + 1)) 0

/-- Python date.toordinal. -/
def toOrdinal (y m d : Nat) : Nat :=
  daysBeforeYear y + daysBeforeMonth y m + (d - 1)

/-- Microseconds since the proleptic epoch, ignoring the offset: the key on
which Python compares two naive datetimes field by field. -/
def dtKeyNaive (dt : PyDateTime) : Nat :=
  (((toOrdinal dt.year dt.month dt.day * 24 + dt.hour) * 60 + dt.minute) * 60
      + dt.second) * 1000000 + dt.usec

/-- Python datetime comparison a <= b.  Both naive: compare fields; both
aware: compare UTC-normalised instants; mixed: Python raises TypeError,
modelled as none. -/
def dtLe (a b : PyDateTime) : Option Bool :=
  match a.offset, b.offset with
  | none, none => some (decide (dtKeyNaive a ≤ dtKeyNaive b))
  | some oa, some ob =>
    some (decide ((dtKeyNaive a : Int) - oa * 60000000 ≤ (dtKeyNaive b : Int) - ob * 60000000))
  | _, _ => none

/-! ### Data model (pydantic models of src/main.py) -/

/-- Request body of POST /salas. -/
structure SalaCreate where
  nombre : String
  capacidad : Int
  ubicacion : String
deriving DecidableEq

/-- The pydantic field validators of SalaCreate: nombre min_length 1,
capacidad ge 1, ubicacion min_length 1 (applied to the raw values;
min_length does not trim). -/
def SalaCreate.valid (p : SalaCreate) : Bool :=
  1 ≤ pyLen p.nombre ∧ 1 ≤ p.capacidad ∧ 1 ≤ pyLen p.ubicacion

/-- A stored room. -/
structure SalaOut where
  id : Nat
  nombre : String
  capacidad : Int
  ubicacion : String
deriving DecidableEq

/-- Request body of POST /reservas. -/
structure ReservaCreate where
  sala_id : Nat
  nombre_solicitante : String
  fecha_inicio : String
  fecha_fin : String
deriving DecidableEq

/-- The pydantic field validators of ReservaCreate: sala_id ge 1,
nombre_solicitante min_length 1; the date strings are unconstrained. -/
def ReservaCreate.valid (p : ReservaCreate) : Bool :=
  1 ≤ p.sala_id ∧ 1 ≤ pyLen p.nombre_solicitante

/-- Request body of PATCH /reservas/(id): only fecha_fin. -/
structure ReservaPatch where
  fecha_fin : String
deriving DecidableEq

/-- A stored reservation. -/
structure ReservaOut where
  id : Nat
  sala_id : Nat
  nombre_solicitante : String
  fecha_inicio : String
  fecha_fin : String
deriving DecidableEq

/-! ### Association-list model of the Python dicts

Python dicts preserve insertion order; assignment to an existing key keeps
its position, assignment to a fresh key appends.  Keys in both stores are
unique (they come from the monotone counters), so del, which removes the
single binding of a key, is modelled by removing every binding of that key. -/

/-- dict.get / dict[k] lookup. -/
def dlookup {α : Type} (l : List (Nat × α)) (k : Nat) : Option α :=
  match l with
  | [] => none
  | (k2, v) :: rest => if k2 = k then some v else dlookup rest k

/-- k in dict. -/
def dcontains {α : Type} (l : List (Nat × α)) (k : Nat) : Bool :=
  (dlookup l k).isSome

/-- dict[k] = v: replace in place when the key is present, else append. -/
def dinsert {α : Type} (l : List (Nat × α)) (k : Nat) (v : α) : List (Nat × α) :=
  match l with
  | [] => [(k, v)]
  | (k2, v2) :: rest => if k2 = k then (k, v) :: rest else (k2, v2) :: dinsert rest k v

/-- del dict[k] (keys are unique, see above). -/
def derase {α : Type} (l : List (Nat × α)) (k : Nat) : List (Nat × α) :=
  l.filter (fun kv => kv.1 ≠ k)

/-- The module-level mutable state of src/main.py: the two dicts and the
two id counters. -/
structure AppState where
  salas : List (Nat × SalaOut)
  reservas : List (Nat × ReservaOut)
  next_sala_id : Nat
  next_reserva_id : Nat
deriving DecidableEq

/-- Initial state: empty dicts, both counters at 1. -/
def initState : AppState :=
  ⟨[], [], 1, 1⟩

/-! ### Errors and responses

Each HTTPException of src/main.py gets a constructor; schemaError is the
pydantic request-validation failure that fires before a handler runs, and
typeError is the uncaught Python TypeError raised when an offset-naive and
an offset-aware datetime are compared (an HTTP 500, outside the error
taxonomy of the spec). -/

inductive Err where
  | schemaError
  | notFound
  | duplicateName
  | unknownRoom
  | invalidDate
  | invalidInterval
  | typeError
deriving DecidableEq

/-- parse_iso of src/main.py: datetime.fromisoformat, with ValueError
turned into the 400 invalid-date HTTPException. -/
def parse_iso (s : String) : Except Err PyDateTime :=
  match fromisoformat s with
  | some dt => Except.ok dt
  | none => Except.error Err.invalidDate

/-! ### Handlers (MODULO A: salas) -/

/-- GET /salas: all rooms in insertion order. -/
def listar_salas (st : AppState) : List SalaOut :=
  st.salas.map (fun kv => kv.2)

/-- GET /salas/(id). -/
def obtener_sala (st : AppState) (sala_id : Nat) : Except Err SalaOut :=
  match dlookup st.salas sala_id with
  | some sala => Except.ok sala
  | none => Except.error Err.notFound

/-- POST /salas handler body (after pydantic validation): reject a
duplicate name under strip+lower comparison, else store the room with
trimmed nombre and ubicacion and bump the counter.  Returns the new id. -/
def crear_sala (st : AppState) (p : SalaCreate) : Except Err Nat × AppState :=
  if st.salas.any (fun kv => pyLower (pyStrip kv.2.nombre) = pyLower (pyStrip p.nombre)) then
    (Except.error Err.duplicateName, st)
  else
    (Except.ok st.next_sala_id,
      { st with
        salas := dinsert st.salas st.next_sala_id
          ⟨st.next_sala_id, pyStrip p.nombre, p.capacidad, pyStrip p.ubicacion⟩,
        next_sala_id := st.next_sala_id + 1 })

/-- POST /salas endpoint: pydantic validation, then the handler. -/
def post_salas (st : AppState) (p : SalaCreate) : Except Err Nat × AppState :=
  if p.valid then crear_sala st p else (Except.error Err.schemaError, st)

/-- DELETE /salas/(id): 404 when absent; else remove the room and every
reservation whose sala_id equals it (the cascade loop over reservas). -/
def eliminar_sala (st : AppState) (sala_id : Nat) : Except Err Unit × AppState :=
  if dcontains st.salas sala_id then
    (Except.ok (),
      { st with
        salas := derase st.salas sala_id,
        reservas := st.reservas.filter (fun kv => kv.2.sala_id ≠ sala_id) })
  else
    (Except.error Err.notFound, st)

/-! ### Handlers (MODULO B: reservas) -/

/-- POST /reservas handler body: sala must exist, both dates must parse,
fin must be strictly after inicio (a mixed naive/aware comparison raises
TypeError); on success store the reservation with the original date
strings and the trimmed requester name, and bump the counter. -/
def crear_reserva (st : AppState) (p : ReservaCreate) : Except Err Nat × AppState :=
  if dcontains st.salas p.sala_id then
    match parse_iso p.fecha_inicio with
    | Except.error e => (Except.error e, st)
    | Except.ok inicio =>
      match parse_iso p.fecha_fin with
      | Except.error e => (Except.error e, st)
      | Except.ok fin =>
        match dtLe fin inicio with
        | none => (Except.error Err.typeError, st)
        | some true => (Except.error Err.invalidInterval, st)
        | some false =>
          (Except.ok st.next_reserva_id,
            { st with
              reservas := dinsert st.reservas st.next_reserva_id
                ⟨st.next_reserva_id, p.sala_id, pyStrip p.nombre_solicitante,
                  p.fecha_inicio, p.fecha_fin⟩,
              next_reserva_id := st.next_reserva_id + 1 })
  else
    (Except.error Err.unknownRoom, st)

/-- POST /reservas endpoint: pydantic validation, then the handler. -/
def post_reservas (st : AppState) (p : ReservaCreate) : Except Err Nat × AppState :=
  if p.valid then crear_reserva st p else (Except.error Err.schemaError, st)

/-- GET /reservas with the optional sala_id filter. -/
def historial_reservas (st : AppState) (sala_id : Option Nat) : List ReservaOut :=
  match sala_id with
  | none => st.reservas.map (fun kv => kv.2)
  | some sid => (st.reservas.map (fun kv => kv.2)).filter (fun r => r.sala_id = sid)

/-- PATCH /reservas/(id): 404 when absent; re-parse the stored fecha_inicio,
parse the new fecha_fin, require new fin strictly after inicio (mixed
naive/aware comparison raises TypeError); on success replace only
fecha_fin and echo it back together with the id. -/
def modificar_reserva (st : AppState) (reserva_id : Nat) (p : ReservaPatch) :
    Except Err (Nat × String) × AppState :=
  match dlookup st.reservas reserva_id with
  | none => (Except.error Err.notFound, st)
  | some reserva =>
    match parse_iso reserva.fecha_inicio with
    | Except.error e => (Except.error e, st)
    | Except.ok inicio =>
      match parse_iso p.fecha_fin with
      | Except.error e => (Except.error e, st)
      | Except.ok nueva_fin =>
        match dtLe nueva_fin inicio with
        | none => (Except.error Err.typeError, st)
        | some true => (Except.error Err.invalidInterval, st)
        | some false =>
          (Except.ok (reserva.id, p.fecha_fin),
            { st with
              reservas := dinsert st.reservas reserva_id
                { reserva with fecha_fin := p.fecha_fin } })

/-- DELETE /reservas/(id): 404 when absent, else remove it. -/
def cancelar_reserva (st : AppState) (reserva_id : Nat) : Except Err Unit × AppState :=
  if dcontains st.reservas reserva_id then
    (Except.ok (), { st with reservas := derase st.reservas reserva_id })
  else
    (Except.error Err.notFound, st)

/-! ### The operation alphabet: every mutating endpoint -/

inductive ApiOp where
  | createSala (p : SalaCreate)
  | deleteSala (sala_id : Nat)
  | createReserva (p : ReservaCreate)
  | patchReserva (reserva_id : Nat) (p : ReservaPatch)
  | deleteReserva (reserva_id : Nat)
deriving DecidableEq

/-- Uniform response value across the mutating endpoints. -/
inductive Resp where
  | created (id : Nat)
  | noContent
  | patched (id : Nat) (fecha_fin : String)
deriving DecidableEq

/-- Run one mutating endpoint (pydantic validation included) on the state. -/
def applyOp (st : AppState) : ApiOp → Except Err Resp × AppState
  | ApiOp.createSala p =>
    let r := post_salas st p
    (r.1.map Resp.created, r.2)
  | ApiOp.deleteSala sid =>
    let r := eliminar_sala st sid
    (r.1.map (fun _ => Resp.noContent), r.2)
  | ApiOp.createReserva p =>
    let r := post_reservas st p
    (r.1.map Resp.created, r.2)
  | ApiOp.patchReserva rid p =>
    let r := modificar_reserva st rid p
    (r.1.map (fun x => Resp.patched x.1 x.2), r.2)
  | ApiOp.deleteReserva rid =>
    let r := cancelar_reserva st rid
    (r.1.map (fun _ => Resp.noContent), r.2)

/-- State after a sequence of operations from the empty initial state. -/
def runOps (ops : List ApiOp) : AppState :=
  ops.foldl (fun st op => (applyOp st op).2) initState

/-! ### Association-list lemmas -/

theorem dlookup_mem {α : Type} {l : List (Nat × α)} {k : Nat} {v : α}
    (h : dlookup l k = some v) : (k, v) ∈ l := by
  induction l with
  | nil => simp [dlookup] at h
  | cons kv rest ih =>
    obtain ⟨a, b⟩ := kv
    rw [dlookup] at h
    by_cases hk : a = k
    · subst hk
      simp at h
      subst h
      exact List.mem_cons_self _ _
    · rw [if_neg hk] at h
      exact List.mem_cons_of_mem _ (ih h)

theorem mem_dinsert {α : Type} {l : List (Nat × α)} {k : Nat} {v : α} {kv : Nat × α}
    (h : kv ∈ dinsert l k v) : kv ∈ l ∨ kv = (k, v) := by
  induction l with
  | nil =>
    simp [dinsert] at h
    right
    exact h
  | cons kv2 rest ih =>
    rw [dinsert] at h
    by_cases hk : kv2.1 = k
    · rw [if_pos hk] at h
      rcases List.mem_cons.mp h with h1 | h1
      · right; exact h1
      · left; exact List.mem_cons_of_mem _ h1
    · rw [if_neg hk] at h
      rcases List.mem_cons.mp h with h1 | h1
      · left; exact h1 ▸ List.mem_cons_self _ _
      · rcases ih h1 with h2 | h2
        · left; exact List.mem_cons_of_mem _ h2
        · right; exact h2

theorem mem_derase {α : Type} {l : List (Nat × α)} {k : Nat} {kv : Nat × α}
    (h : kv ∈ derase l k) : kv ∈ l ∧ kv.1 ≠ k := by
  have h2 := List.mem_filter.mp h
  refine ⟨h2.1, ?_⟩
  simpa using h2.2

theorem dlookup_dinsert_self {α : Type} (l : List (Nat × α)) (k : Nat) (v : α) :
    dlookup (dinsert l k v) k = some v := by
  induction l with
  | nil => simp [dinsert, dlookup]
  | cons kv rest ih =>
    rw [dinsert]
    by_cases hk : kv.1 = k
    · rw [if_pos hk, dlookup, if_pos rfl]
    · rw [if_neg hk, dlookup, if_neg hk]
      exact ih

theorem dlookup_dinsert_ne {α : Type} (l : List (Nat × α)) (k k2 : Nat) (v : α)
    (h : k2 ≠ k) : dlookup (dinsert l k v) k2 = dlookup l k2 := by
  induction l with
  | nil =>
    simp only [dinsert, dlookup]
    rw [if_neg (fun hkk => h hkk.symm)]
  | cons kv rest ih =>
    rw [dinsert]
    by_cases hk : kv.1 = k
    · rw [if_pos hk, dlookup, dlookup, if_neg (fun hkk => h hkk.symm), if_neg]
      rw [hk]
      exact fun hkk => h hkk.symm
    · rw [if_neg hk, dlookup, dlookup]
      by_cases hk2 : kv.1 = k2
      · rw [if_pos hk2, if_pos hk2]
      · rw [if_neg hk2, if_neg hk2]
        exact ih

theorem dcontains_dinsert {α : Type} (l : List (Nat × α)) (k k2 : Nat) (v : α)
    (h : dcontains l k2 = true) : dcontains (dinsert l k v) k2 = true := by
  by_cases hk : k2 = k
  · rw [hk, dcontains, dlookup_dinsert_self]
    rfl
  · rw [dcontains, dlookup_dinsert_ne _ _ _ _ hk]
    exact h

theorem derase_cons_self {α : Type} (a : Nat) (b : α) (rest : List (Nat × α))
    (k : Nat) (h : a = k) : derase ((a, b) :: rest) k = derase rest k := by
  simp [derase, List.filter_cons, h]

theorem derase_cons_ne {α : Type} (a : Nat) (b : α) (rest : List (Nat × α))
    (k : Nat) (h : ¬a = k) : derase ((a, b) :: rest) k = (a, b) :: derase rest k := by
  simp [derase, List.filter_cons, h]

theorem dlookup_derase_self {α : Type} (l : List (Nat × α)) (k : Nat) :
    dlookup (derase l k) k = none := by
  induction l with
  | nil => rfl
  | cons kv rest ih =>
    obtain ⟨a, b⟩ := kv
    by_cases hk : a = k
    · rw [derase_cons_self _ _ _ _ hk]
      exact ih
    · rw [derase_cons_ne _ _ _ _ hk, dlookup, if_neg hk]
      exact ih

theorem dlookup_derase_ne {α : Type} (l : List (Nat × α)) (k k2 : Nat)
    (h : k2 ≠ k) : dlookup (derase l k) k2 = dlookup l k2 := by
  induction l with
  | nil => rfl
  | cons kv rest ih =>
    obtain ⟨a, b⟩ := kv
    by_cases hk : a = k
    · have hk2 : ¬a = k2 := fun hc => h (hc ▸ hk)
      rw [derase_cons_self _ _ _ _ hk, dlookup, if_neg hk2]
      exact ih
    · rw [derase_cons_ne _ _ _ _ hk, dlookup, dlookup]
      by_cases hk2 : a = k2
      · rw [if_pos hk2, if_pos hk2]
      · rw [if_neg hk2, if_neg hk2]
        exact ih

theorem dcontains_derase {α : Type} (l : List (Nat × α)) (k k2 : Nat)
    (h : dcontains l k2 = true) (hne : k2 ≠ k) :
    dcontains (derase l k) k2 = true := by
  rw [dcontains, dlookup_derase_ne _ _ _ hne]
  exact h

/-! ### parse_iso lemmas -/

/-- The date string is accepted by fromisoformat. -/
def parseOk (s : String) : Bool :=
  (fromisoformat s).isSome

theorem parse_iso_ok_iff {s : String} {dt : PyDateTime} :
    parse_iso s = Except.ok dt ↔ fromisoformat s = some dt := by
  unfold parse_iso
  cases h : fromisoformat s <;> simp

theorem parse_iso_error_iff {s : String} {e : Err} :
    parse_iso s = Except.error e ↔ fromisoformat s = none ∧ e = Err.invalidDate := by
  unfold parse_iso
  cases h : fromisoformat s <;> simp [eq_comm]

theorem parseOk_of_parse_iso {s : String} {dt : PyDateTime}
    (h : parse_iso s = Except.ok dt) : parseOk s = true := by
  rw [parseOk, parse_iso_ok_iff.mp h]
  rfl

theorem parseOk_some {s : String} (h : parseOk s = true) :
    ∃ dt, fromisoformat s = some dt := by
  rw [parseOk] at h
  exact Option.isSome_iff_exists.mp h

/-! ### Reachable-state invariants -/

/-- Referential integrity: every stored reservation points at a stored room. -/
def refIntegrity (st : AppState) : Prop :=
  ∀ kv ∈ st.reservas, dcontains st.salas kv.2.sala_id = true

/-- Both date strings of every stored reservation parse. -/
def datesParse (st : AppState) : Prop :=
  ∀ kv ∈ st.reservas, parseOk kv.2.fecha_inicio = true ∧ parseOk kv.2.fecha_fin = true

theorem refIntegrity_crear_sala (st : AppState) (p : SalaCreate)
    (h : refIntegrity st) : refIntegrity (crear_sala st p).2 := by
  unfold crear_sala
  split
  · exact h
  · intro kv hm
    exact dcontains_dinsert _ _ _ _ (h kv hm)

theorem refIntegrity_post_salas (st : AppState) (p : SalaCreate)
    (h : refIntegrity st) : refIntegrity (post_salas st p).2 := by
  unfold post_salas
  split
  · exact refIntegrity_crear_sala st p h
  · exact h

theorem refIntegrity_eliminar_sala (st : AppState) (sid : Nat)
    (h : refIntegrity st) : refIntegrity (eliminar_sala st sid).2 := by
  unfold eliminar_sala
  split
  · intro kv hm
    have h2 := List.mem_filter.mp hm
    have hne : kv.2.sala_id ≠ sid := by simpa using h2.2
    exact dcontains_derase _ _ _ (h kv h2.1) hne
  · exact h

theorem refIntegrity_crear_reserva (st : AppState) (p : ReservaCreate)
    (h : refIntegrity st) : refIntegrity (crear_reserva st p).2 := by
  unfold crear_reserva
  split
  next hq =>
    split
    · exact h
    · split
      · exact h
      · split
        · exact h
        · exact h
        · intro kv hm
          rcases mem_dinsert hm with h1 | h1
          · exact h kv h1
          · rw [h1]
            exact hq
  next => exact h

theorem refIntegrity_post_reservas (st : AppState) (p : ReservaCreate)
    (h : refIntegrity st) : refIntegrity (post_reservas st p).2 := by
  unfold post_reservas
  split
  · exact refIntegrity_crear_reserva st p h
  · exact h

theorem refIntegrity_modificar_reserva (st : AppState) (rid : Nat) (p : ReservaPatch)
    (h : refIntegrity st) : refIntegrity (modificar_reserva st rid p).2 := by
  unfold modificar_reserva
  split
  · exact h
  next reserva hl =>
    split
    · exact h
    · split
      · exact h
      · split
        · exact h
        · exact h
        · intro kv hm
          rcases mem_dinsert hm with h1 | h1
          · exact h kv h1
          · rw [h1]
            exact h (rid, reserva) (dlookup_mem hl)

theorem refIntegrity_cancelar_reserva (st : AppState) (rid : Nat)
    (h : refIntegrity st) : refIntegrity (cancelar_reserva st rid).2 := by
  unfold cancelar_reserva
  split
  · intro kv hm
    exact h kv (mem_derase hm).1
  · exact h

theorem refIntegrity_applyOp (st : AppState) (op : ApiOp)
    (h : refIntegrity st) : refIntegrity (applyOp st op).2 := by
  cases op with
  | createSala p => exact refIntegrity_post_salas st p h
  | deleteSala sid => exact refIntegrity_eliminar_sala st sid h
  | createReserva p => exact refIntegrity_post_reservas st p h
  | patchReserva rid p => exact refIntegrity_modificar_reserva st rid p h
  | deleteReserva rid => exact refIntegrity_cancelar_reserva st rid h

theorem datesParse_crear_sala (st : AppState) (p : SalaCreate)
    (h : datesParse st) : datesParse (crear_sala st p).2 := by
  unfold crear_sala
  split
  · exact h
  · intro kv hm
    exact h kv hm

theorem datesParse_post_salas (st : AppState) (p : SalaCreate)
    (h : datesParse st) : datesParse (post_salas st p).2 := by
  unfold post_salas
  split
  · exact datesParse_crear_sala st p h
  · exact h

theorem datesParse_eliminar_sala (st : AppState) (sid : Nat)
    (h : datesParse st) : datesParse (eliminar_sala st sid).2 := by
  unfold eliminar_sala
  split
  · intro kv hm
    exact h kv (List.mem_filter.mp hm).1
  · exact h

theorem datesParse_crear_reserva (st : AppState) (p : ReservaCreate)
    (h : datesParse st) : datesParse (crear_reserva st p).2 := by
  unfold crear_reserva
  split
  · split
    · exact h
    next inicio hpi =>
      split
      · exact h
      next fin hpf =>
        split
        · exact h
        · exact h
        · intro kv hm
          rcases mem_dinsert hm with h1 | h1
          · exact h kv h1
          · rw [h1]
            exact ⟨parseOk_of_parse_iso hpi, parseOk_of_parse_iso hpf⟩
  · exact h

theorem datesParse_post_reservas (st : AppState) (p : ReservaCreate)
    (h : datesParse st) : datesParse (post_reservas st p).2 := by
  unfold post_reservas
  split
  · exact datesParse_crear_reserva st p h
  · exact h

theorem datesParse_modificar_reserva (st : AppState) (rid : Nat) (p : ReservaPatch)
    (h : datesParse st) : datesParse (modificar_reserva st rid p).2 := by
  unfold modificar_reserva
  split
  · exact h
  next reserva hl =>
    split
    · exact h
    next inicio hpi =>
      split
      · exact h
      next fin hpf =>
        split
        · exact h
        · exact h
        · intro kv hm
          rcases mem_dinsert hm with h1 | h1
          · exact h kv h1
          · rw [h1]
            exact ⟨parseOk_of_parse_iso hpi, parseOk_of_parse_iso hpf⟩

theorem datesParse_cancelar_reserva (st : AppState) (rid : Nat)
    (h : datesParse st) : datesParse (cancelar_reserva st rid).2 := by
  unfold cancelar_reserva
  split
  · intro kv hm
    exact h kv (mem_derase hm).1
  · exact h

theorem datesParse_applyOp (st : AppState) (op : ApiOp)
    (h : datesParse st) : datesParse (applyOp st op).2 := by
  cases op with
  | createSala p => exact datesParse_post_salas st p h
  | deleteSala sid => exact datesParse_eliminar_sala st sid h
  | createReserva p => exact datesParse_post_reservas st p h
  | patchReserva rid p => exact datesParse_modificar_reserva st rid p h
  | deleteReserva rid => exact datesParse_cancelar_reserva st rid h

theorem foldl_applyOp_inv (P : AppState → Prop)
    (hstep : ∀ st op, P st → P ((applyOp st op).2)) :
    ∀ (ops : List ApiOp) (st : AppState), P st →
      P (ops.foldl (fun st op => (applyOp st op).2) st) := by
  intro ops
  induction ops with
  | nil => intro st h; exact h
  | cons op rest ih => intro st h; exact ih _ (hstep st op h)

theorem refIntegrity_runOps (ops : List ApiOp) : refIntegrity (runOps ops) := by
  unfold runOps
  refine foldl_applyOp_inv refIntegrity refIntegrity_applyOp ops initState ?_
  intro kv hm
  simp [initState] at hm

theorem datesParse_runOps (ops : List ApiOp) : datesParse (runOps ops) := by
  unfold runOps
  refine foldl_applyOp_inv datesParse datesParse_applyOp ops initState ?_
  intro kv hm
  simp [initState] at hm

/-! ### Error outcomes leave the state unchanged (every raise in src/main.py
happens before any mutation of the dicts or counters) -/

theorem except_map_error {ε α β : Type} (f : α → β) (x : Except ε α) (e : ε)
    (h : x.map f = Except.error e) : x = Except.error e := by
  cases x with
  | error e2 => simpa [Except.map] using h
  | ok a => simp [Except.map] at h

theorem crear_sala_error (st : AppState) (p : SalaCreate) (e : Err) :
    (crear_sala st p).1 = Except.error e → (crear_sala st p).2 = st := by
  unfold crear_sala
  split
  · intro _; rfl
  · intro h; simp at h

theorem post_salas_error (st : AppState) (p : SalaCreate) (e : Err) :
    (post_salas st p).1 = Except.error e → (post_salas st p).2 = st := by
  unfold post_salas
  split
  · exact crear_sala_error st p e
  · intro _; rfl

theorem eliminar_sala_error (st : AppState) (sid : Nat) (e : Err) :
    (eliminar_sala st sid).1 = Except.error e → (eliminar_sala st sid).2 = st := by
  unfold eliminar_sala
  split
  · intro h; simp at h
  · intro _; rfl

theorem crear_reserva_error (st : AppState) (p : ReservaCreate) (e : Err) :
    (crear_reserva st p).1 = Except.error e → (crear_reserva st p).2 = st := by
  unfold crear_reserva
  split
  · split
    · intro _; rfl
    · split
      · intro _; rfl
      · split
        · intro _; rfl
        · intro _; rfl
        · intro h; simp at h
  · intro _; rfl

theorem post_reservas_error (st : AppState) (p : ReservaCreate) (e : Err) :
    (post_reservas st p).1 = Except.error e → (post_reservas st p).2 = st := by
  unfold post_reservas
  split
  · exact crear_reserva_error st p e
  · intro _; rfl

theorem modificar_reserva_error (st : AppState) (rid : Nat) (p : ReservaPatch) (e : Err) :
    (modificar_reserva st rid p).1 = Except.error e → (modificar_reserva st rid p).2 = st := by
  unfold modificar_reserva
  split
  · intro _; rfl
  · split
    · intro _; rfl
    · split
      · intro _; rfl
      · split
        · intro _; rfl
        · intro _; rfl
        · intro h; simp at h

theorem cancelar_reserva_error (st : AppState) (rid : Nat) (e : Err) :
    (cancelar_reserva st rid).1 = Except.error e → (cancelar_reserva st rid).2 = st := by
  unfold cancelar_reserva
  split
  · intro h; simp at h
  · intro _; rfl

theorem applyOp_error_frame (st : AppState) (op : ApiOp) (e : Err)
    (he : (applyOp st op).1 = Except.error e) : (applyOp st op).2 = st := by
  cases op with
  | createSala p => exact post_salas_error st p e (except_map_error _ _ _ he)
  | deleteSala sid => exact eliminar_sala_error st sid e (except_map_error _ _ _ he)
  | createReserva p => exact post_reservas_error st p e (except_map_error _ _ _ he)
  | patchReserva rid p => exact modificar_reserva_error st rid p e (except_map_error _ _ _ he)
  | deleteReserva rid => exact cancelar_reserva_error st rid e (except_map_error _ _ _ he)

/-- An invalid-date failure of the patch handler comes either from the
re-parse of the stored start or from the new end value. -/
theorem modificar_invalidDate_cases (st : AppState) (rid : Nat) (p : ReservaPatch)
    (hmod : (modificar_reserva st rid p).1 = Except.error Err.invalidDate) :
    (∃ r, dlookup st.reservas rid = some r ∧
      parse_iso r.fecha_inicio = Except.error Err.invalidDate) ∨
    parse_iso p.fecha_fin = Except.error Err.invalidDate := by
  unfold modificar_reserva at hmod
  split at hmod
  · simp at hmod
  next reserva hl =>
    split at hmod
    next e hpe =>
      left
      simp only [Except.error.injEq] at hmod
      refine ⟨reserva, hl, ?_⟩
      rw [hpe, hmod]
    next inicio hpi =>
      split at hmod
      next e hpf =>
        right
        simp only [Except.error.injEq] at hmod
        rw [hpf, hmod]
      next fin hpf =>
        split at hmod <;> simp at hmod

/-! ### Concrete example states (the worked example of the spec) -/

/-- State after creating room Sala A (id 1) from the initial state. -/
def stA : AppState :=
  (post_salas initState ⟨"Sala A", 4, "Piso 1"⟩).2

/-- stA after creating the reservation by Ana (id 1, 10:00 to 11:00). -/
def stAR : AppState :=
  (post_reservas stA ⟨1, "Ana", "2026-01-20T10:00:00", "2026-01-20T11:00:00"⟩).2

/-- stAR after the successful patch of the end time to 12:00. -/
def stARP : AppState :=
  (modificar_reserva stAR 1 ⟨"2026-01-20T12:00:00"⟩).2

/-- The reservation record stored in stAR under key 1. -/
def rEx : ReservaOut :=
  ⟨1, 1, "Ana", "2026-01-20T10:00:00", "2026-01-20T11:00:00"⟩

/-- State with a single room named Alpha (id 1). -/
def stAlpha : AppState :=
  (post_salas initState ⟨"Alpha", 4, "P"⟩).2

/-- Operation sequence: create room Sala A, then the reservation by Ana. -/
def opsEx : List ApiOp :=
  [ApiOp.createSala ⟨"Sala A", 4, "Piso 1"⟩,
    ApiOp.createReserva ⟨1, "Ana", "2026-01-20T10:00:00", "2026-01-20T11:00:00"⟩]

/-! ### The claims -/

/-- Claim C1: from the empty initial state, after every sequence of
operations every stored reservation has a sala_id that is a key of the
room store; a dangling roomId is never observable. -/
theorem C1_referential_integrity (ops : List ApiOp) :
    ∀ kv ∈ (runOps ops).reservas, dcontains (runOps ops).salas kv.2.sala_id = true :=
  refIntegrity_runOps ops

theorem C1_referential_integrity_witness :
    (1, rEx) ∈ (runOps opsEx).reservas ∧
    dcontains (runOps opsEx).salas rEx.sala_id = true :=
  ⟨by decide, C1_referential_integrity opsEx (1, rEx) (by decide)⟩

/-- Claim C2: deleting a room that is present returns 204 with an empty
body (modelled Except.ok ()), removes that room, removes exactly the
reservations whose sala_id equals it, and leaves every other room, every
other reservation and both id counters unchanged; deleting an absent room
fails with NotFound and changes nothing. -/
theorem C2_cascade_delete (st : AppState) (sid : Nat) :
    (dcontains st.salas sid = true →
      (eliminar_sala st sid).1 = Except.ok () ∧
      dlookup (eliminar_sala st sid).2.salas sid = none ∧
      (∀ k, k ≠ sid → dlookup (eliminar_sala st sid).2.salas k = dlookup st.salas k) ∧
      (∀ kv : Nat × ReservaOut,
        kv ∈ (eliminar_sala st sid).2.reservas ↔ kv ∈ st.reservas ∧ kv.2.sala_id ≠ sid) ∧
      (eliminar_sala st sid).2.next_sala_id = st.next_sala_id ∧
      (eliminar_sala st sid).2.next_reserva_id = st.next_reserva_id) ∧
    (dcontains st.salas sid = false →
      (eliminar_sala st sid).1 = Except.error Err.notFound ∧
      (eliminar_sala st sid).2 = st) := by
  constructor
  · intro h
    unfold eliminar_sala
    rw [h]
    refine ⟨rfl, dlookup_derase_self _ _, ?_, ?_, rfl, rfl⟩
    · intro k hk
      exact dlookup_derase_ne _ _ _ hk
    · intro kv
      constructor
      · intro hm
        have h2 := List.mem_filter.mp hm
        exact ⟨h2.1, by simpa using h2.2⟩
      · intro h2
        exact List.mem_filter.mpr ⟨h2.1, by simpa using h2.2⟩
  · intro h
    unfold eliminar_sala
    rw [h]
    exact ⟨rfl, rfl⟩

theorem C2_cascade_delete_witness :
    dcontains stAR.salas 1 = true ∧
    (eliminar_sala stAR 1).1 = Except.ok () ∧
    dlookup (eliminar_sala stAR 1).2.salas 1 = none :=
  ⟨by decide, ((C2_cascade_delete stAR 1).1 (by decide)).1,
    ((C2_cascade_delete stAR 1).1 (by decide)).2.1⟩

/-- Claim C3 (code bug): with room 1 present and both timestamps valid
ISO-8601 date-times, one naive and one carrying a UTC offset, the
create-reservation comparison fin <= inicio is undefined: Python raises an
uncaught TypeError (HTTP 500), an outcome outside the error taxonomy,
contradicting the claim that the comparison of the two parsed instants is
always defined. -/
theorem C3_mixed_offset_crash :
    dcontains stA.salas 1 = true ∧
    parseOk "2026-01-20T10:00:00" = true ∧
    parseOk "2026-01-20T11:00:00+00:00" = true ∧
    (post_reservas stA ⟨1, "Ana", "2026-01-20T10:00:00", "2026-01-20T11:00:00+00:00"⟩).1
      = Except.error Err.typeError := by decide

/-- Claim C4: create room fails with DuplicateName exactly when some
existing room matches the requested name under strip+lower comparison; on
success the room is stored with trimmed name and location and the new id
is returned. -/
theorem C4_duplicate_name (st : AppState) (p : SalaCreate) :
    ((crear_sala st p).1 = Except.error Err.duplicateName ↔
      ∃ kv ∈ st.salas, pyLower (pyStrip kv.2.nombre) = pyLower (pyStrip p.nombre)) ∧
    (∀ id2, (crear_sala st p).1 = Except.ok id2 →
      id2 = st.next_sala_id ∧
      dlookup (crear_sala st p).2.salas id2 =
        some ⟨st.next_sala_id, pyStrip p.nombre, p.capacidad, pyStrip p.ubicacion⟩) := by
  unfold crear_sala
  split
  next hq =>
    constructor
    · constructor
      · intro _
        obtain ⟨kv, hm, he⟩ := List.any_eq_true.mp hq
        exact ⟨kv, hm, of_decide_eq_true he⟩
      · intro _
        rfl
    · intro id2 h
      simp at h
  next hq =>
    constructor
    · constructor
      · intro h
        simp at h
      · intro hex
        exfalso
        apply hq
        obtain ⟨kv, hm, he⟩ := hex
        exact List.any_eq_true.mpr ⟨kv, hm, decide_eq_true he⟩
    · intro id2 h
      simp at h
      subst h
      exact ⟨rfl, dlookup_dinsert_self _ _ _⟩

theorem C4_duplicate_name_witness :
    (crear_sala stAlpha ⟨"  alpha ", 3, "Q"⟩).1 = Except.error Err.duplicateName :=
  (C4_duplicate_name stAlpha ⟨"  alpha ", 3, "Q"⟩).1.mpr
    ⟨(1, ⟨1, "Alpha", 4, "P"⟩), by decide, by decide⟩

/-- Claim C5 counterexample: the name consisting of three spaces is
non-empty, trims to the empty string, and yet the create-room endpoint
accepts it (pydantic min_length counts raw characters) and stores a room
whose stored name is empty; the claim says such a request fails with
InvalidInput and that a room with an empty stored name is never created. -/
theorem C5_whitespace_name_accepted :
    (⟨"   ", 1, "Piso 1"⟩ : SalaCreate).nombre ≠ "" ∧
    pyStrip (⟨"   ", 1, "Piso 1"⟩ : SalaCreate).nombre = "" ∧
    (post_salas initState ⟨"   ", 1, "Piso 1"⟩).1 = Except.ok 1 ∧
    dlookup (post_salas initState ⟨"   ", 1, "Piso 1"⟩).2.salas 1 =
      some ⟨1, "", 1, "Piso 1"⟩ := by decide

/-- Claim C5 as amended: only a genuinely empty (length-zero) name or
location fails schema validation (InvalidInput) with nothing stored; a
whitespace-only value passes validation, and on any successful creation
the stored name and location are the trimmed values, which may be empty. -/
theorem C5_empty_field_rejected (st : AppState) (p : SalaCreate) :
    ((p.nombre = "" ∨ p.ubicacion = "") →
      (post_salas st p).1 = Except.error Err.schemaError ∧ (post_salas st p).2 = st) ∧
    (∀ id2, (post_salas st p).1 = Except.ok id2 →
      dlookup (post_salas st p).2.salas id2 =
        some ⟨id2, pyStrip p.nombre, p.capacidad, pyStrip p.ubicacion⟩) := by
  constructor
  · intro h
    have hv : p.valid = false := by
      unfold SalaCreate.valid
      rcases h with h | h
      · rw [h]
        apply decide_eq_false
        intro hc
        exact absurd hc.1 (by decide)
      · rw [h]
        apply decide_eq_false
        intro hc
        exact absurd hc.2.2 (by decide)
    unfold post_salas
    rw [hv]
    exact ⟨rfl, rfl⟩
  · intro id2 h
    revert h
    unfold post_salas
    split
    · unfold crear_sala
      split
      · intro h
        simp at h
      · intro h
        simp at h
        subst h
        exact dlookup_dinsert_self _ _ _
    · intro h
      simp at h

theorem C5_empty_field_rejected_witness :
    (post_salas initState ⟨"", 4, "Piso 1"⟩).1 = Except.error Err.schemaError ∧
    (post_salas initState ⟨"", 4, "Piso 1"⟩).2 = initState :=
  (C5_empty_field_rejected initState ⟨"", 4, "Piso 1"⟩).1 (Or.inl rfl)

/-- Claim C6 counterexample: with no rooms stored and both date strings
unparsable, create reservation fails with UnknownRoom, not InvalidInput:
the handler checks sala_id before parsing any date, so the claim fails in
the case it singles out (roomId absent). -/
theorem C6_unknown_room_first :
    dcontains initState.salas 1 = false ∧
    parse_iso "garbage" = Except.error Err.invalidDate ∧
    (post_reservas initState ⟨1, "Ana", "garbage", "garbage"⟩).1
      = Except.error Err.unknownRoom := by decide

/-- Claim C6 as amended: when the room is absent the operation fails with
UnknownRoom regardless of the date strings; when the room exists and
either date fails to parse, it fails with InvalidInput; in both cases
nothing is persisted. -/
theorem C6_invalid_date_rejected (st : AppState) (p : ReservaCreate) :
    (dcontains st.salas p.sala_id = false →
      (crear_reserva st p).1 = Except.error Err.unknownRoom ∧
      (crear_reserva st p).2 = st) ∧
    (dcontains st.salas p.sala_id = true →
      (fromisoformat p.fecha_inicio = none ∨ fromisoformat p.fecha_fin = none) →
      (crear_reserva st p).1 = Except.error Err.invalidDate ∧
      (crear_reserva st p).2 = st) := by
  constructor
  · intro h
    unfold crear_reserva
    rw [h]
    exact ⟨rfl, rfl⟩
  · intro h hp
    unfold crear_reserva
    rw [h]
    rcases hpi : fromisoformat p.fecha_inicio with _ | dti
    · have h1 : parse_iso p.fecha_inicio = Except.error Err.invalidDate :=
        parse_iso_error_iff.mpr ⟨hpi, rfl⟩
      rw [h1]
      exact ⟨rfl, rfl⟩
    · have hpf : fromisoformat p.fecha_fin = none := by
        rcases hp with hp | hp
        · rw [hpi] at hp
          cases hp
        · exact hp
      have h1 : parse_iso p.fecha_inicio = Except.ok dti := parse_iso_ok_iff.mpr hpi
      have h2 : parse_iso p.fecha_fin = Except.error Err.invalidDate :=
        parse_iso_error_iff.mpr ⟨hpf, rfl⟩
      rw [h1, h2]
      exact ⟨rfl, rfl⟩

theorem C6_invalid_date_rejected_witness :
    dcontains stA.salas 1 = true ∧
    (crear_reserva stA ⟨1, "Ana", "bad", "2026-01-20T11:00:00"⟩).1
      = Except.error Err.invalidDate ∧
    (crear_reserva stA ⟨1, "Ana", "bad", "2026-01-20T11:00:00"⟩).2 = stA :=
  ⟨by decide,
    ((C6_invalid_date_rejected stA ⟨1, "Ana", "bad", "2026-01-20T11:00:00"⟩).2
      (by decide) (Or.inl (by decide))).1,
    ((C6_invalid_date_rejected stA ⟨1, "Ana", "bad", "2026-01-20T11:00:00"⟩).2
      (by decide) (Or.inl (by decide))).2⟩

/-- Claim C7: for an existing reservation and a newEnd that parses and
strictly follows the parsed stored start, the patch succeeds echoing the
supplied end string, replaces only that reservation fecha_fin (id,
sala_id, requester and start kept), and leaves every other reservation,
all rooms and both counters unchanged. -/
theorem C7_patch_frame (st : AppState) (rid : Nat) (p : ReservaPatch) (r : ReservaOut)
    (inicio fin : PyDateTime)
    (hr : dlookup st.reservas rid = some r)
    (hi : parse_iso r.fecha_inicio = Except.ok inicio)
    (hf : parse_iso p.fecha_fin = Except.ok fin)
    (hgt : dtLe fin inicio = some false) :
    (modificar_reserva st rid p).1 = Except.ok (r.id, p.fecha_fin) ∧
    dlookup (modificar_reserva st rid p).2.reservas rid =
      some ⟨r.id, r.sala_id, r.nombre_solicitante, r.fecha_inicio, p.fecha_fin⟩ ∧
    (∀ k, k ≠ rid →
      dlookup (modificar_reserva st rid p).2.reservas k = dlookup st.reservas k) ∧
    (modificar_reserva st rid p).2.salas = st.salas ∧
    (modificar_reserva st rid p).2.next_sala_id = st.next_sala_id ∧
    (modificar_reserva st rid p).2.next_reserva_id = st.next_reserva_id := by
  have hstep : modificar_reserva st rid p =
      (Except.ok (r.id, p.fecha_fin),
        { st with reservas := (dinsert st.reservas rid
            ⟨r.id, r.sala_id, r.nombre_solicitante, r.fecha_inicio, p.fecha_fin⟩) }) := by
    simp only [modificar_reserva, hr, hi, hf, hgt]
  rw [hstep]
  refine ⟨rfl, dlookup_dinsert_self _ _ _, ?_, rfl, rfl, rfl⟩
  intro k hk
  exact dlookup_dinsert_ne _ _ _ _ hk

theorem C7_patch_frame_witness :
    dlookup stAR.reservas 1 = some rEx ∧
    (modificar_reserva stAR 1 ⟨"2026-01-20T12:00:00"⟩).1
      = Except.ok (1, "2026-01-20T12:00:00") ∧
    dlookup (modificar_reserva stAR 1 ⟨"2026-01-20T12:00:00"⟩).2.reservas 1 =
      some ⟨1, 1, "Ana", "2026-01-20T10:00:00", "2026-01-20T12:00:00"⟩ ∧
    (modificar_reserva stAR 1 ⟨"2026-01-20T12:00:00"⟩).2.salas = stAR.salas :=
  ⟨by decide,
    (C7_patch_frame stAR 1 ⟨"2026-01-20T12:00:00"⟩ rEx
      ⟨2026, 1, 20, 10, 0, 0, 0, none⟩ ⟨2026, 1, 20, 12, 0, 0, 0, none⟩
      (by decide) (by decide) (by decide) (by decide)).1,
    (C7_patch_frame stAR 1 ⟨"2026-01-20T12:00:00"⟩ rEx
      ⟨2026, 1, 20, 10, 0, 0, 0, none⟩ ⟨2026, 1, 20, 12, 0, 0, 0, none⟩
      (by decide) (by decide) (by decide) (by decide)).2.1,
    (C7_patch_frame stAR 1 ⟨"2026-01-20T12:00:00"⟩ rEx
      ⟨2026, 1, 20, 10, 0, 0, 0, none⟩ ⟨2026, 1, 20, 12, 0, 0, 0, none⟩
      (by decide) (by decide) (by decide) (by decide)).2.2.2.1⟩

/-- Claim C8: whenever a mutating endpoint fails with a taxonomy error
(anything other than the uncaught TypeError crash), the whole state, both
stores and both counters, is exactly as before the call. -/
theorem C8_atomic_failure (st : AppState) (op : ApiOp) (e : Err)
    (he : (applyOp st op).1 = Except.error e) (_htax : e ≠ Err.typeError) :
    (applyOp st op).2 = st :=
  applyOp_error_frame st op e he

theorem C8_atomic_failure_witness :
    (applyOp stAR (ApiOp.createSala ⟨"sala a", 9, "X"⟩)).1
      = Except.error Err.duplicateName ∧
    Err.duplicateName ≠ Err.typeError ∧
    (applyOp stAR (ApiOp.createSala ⟨"sala a", 9, "X"⟩)).2 = stAR :=
  ⟨by decide, by decide,
    C8_atomic_failure stAR (ApiOp.createSala ⟨"sala a", 9, "X"⟩) Err.duplicateName
      (by decide) (by decide)⟩

/-- Claim C9: the worked example. Creating Sala A returns id 1; the
reservation by Ana returns id 1; patching its end to 09:00 fails with
InvalidInterval; patching to 12:00 succeeds echoing that end time;
deleting room 1 leaves the unfiltered reservation list empty. -/
theorem C9_worked_example :
    (post_salas initState ⟨"Sala A", 4, "Piso 1"⟩).1 = Except.ok 1 ∧
    (post_reservas stA ⟨1, "Ana", "2026-01-20T10:00:00", "2026-01-20T11:00:00"⟩).1
      = Except.ok 1 ∧
    (modificar_reserva stAR 1 ⟨"2026-01-20T09:00:00"⟩).1
      = Except.error Err.invalidInterval ∧
    (modificar_reserva stAR 1 ⟨"2026-01-20T12:00:00"⟩).1
      = Except.ok (1, "2026-01-20T12:00:00") ∧
    historial_reservas (eliminar_sala stARP 1).2 none = [] := by decide

/-- Claim C10: in every reachable state both stored date strings of every
reservation parse; consequently a patch can fail with InvalidInput only
because of the supplied new end value, never because of the re-parse of
the stored start. -/
theorem C10_stored_dates_parse (ops : List ApiOp) :
    (∀ kv ∈ (runOps ops).reservas,
      parseOk kv.2.fecha_inicio = true ∧ parseOk kv.2.fecha_fin = true) ∧
    (∀ (rid : Nat) (p : ReservaPatch),
      (modificar_reserva (runOps ops) rid p).1 = Except.error Err.invalidDate →
      parse_iso p.fecha_fin = Except.error Err.invalidDate) := by
  refine ⟨datesParse_runOps ops, ?_⟩
  intro rid p hmod
  rcases modificar_invalidDate_cases _ rid p hmod with ⟨r, hl, hpi⟩ | h
  · obtain ⟨hio, _⟩ := datesParse_runOps ops (rid, r) (dlookup_mem hl)
    obtain ⟨dti, hdti⟩ := parseOk_some hio
    rw [parse_iso_ok_iff.mpr hdti] at hpi
    cases hpi
  · exact h

theorem C10_stored_dates_parse_witness :
    (1, rEx) ∈ (runOps opsEx).reservas ∧
    parseOk rEx.fecha_inicio = true ∧
    parseOk rEx.fecha_fin = true :=
  ⟨by decide,
    ((C10_stored_dates_parse opsEx).1 (1, rEx) (by decide)).1,
    ((C10_stored_dates_parse opsEx).1 (1, rEx) (by decide)).2⟩
